import Mathlib

/- Shallow embedding of the MicroCrop USSD farmer-registration service
   (src/index.js).  The session store and the farmer registry are modelled
   as functions from string keys to optional records; timestamps are
   integers (milliseconds since epoch).  JavaScript numbers produced by
   parseFloat are modelled as IEEE-754 binary64 values: the parsed
   decimal is rounded to the nearest double (ties to even, overflow to
   Infinity, underflow to zero) and every finite double is kept exactly
   as a decimal value (an integer mantissa over a power of ten).
   Property reads on the plain-object maps follow the prototype chain
   of Object.prototype, as JavaScript does. -/

namespace MicroCrop

set_option maxRecDepth 100000

set_option exponentiation.threshold 2000

/-- Dialogue stages, from the stage strings used in src/index.js. -/
inductive Stage where
  | MAIN_MENU
  | ENTER_NAME
  | SELECT_COUNTY
  | ENTER_CUSTOM_COUNTY
  | SELECT_CROP
  | ENTER_CUSTOM_CROP
  | ENTER_FARM_SIZE
  | CONFIRM_REGISTRATION
deriving DecidableEq, Repr

/-- A JavaScript number as produced by parseFloat: NaN, a signed
    infinity, or a finite double held exactly as the decimal value
    n / 10 ^ k (every finite binary64 value is one; representations are
    kept in lowest decimal terms, so equal numbers have identical
    representations; the sign of zero is not tracked, which JavaScript
    template literals and comparisons with 0 cannot observe either). -/
inductive JSNum where
  | nan
  | inf (positive : Bool)
  | dec (n : ℤ) (k : ℕ)
deriving DecidableEq, Repr

/-- Exact rational value of a finite JSNum. -/
def JSNum.toRatVal : JSNum → Option ℚ
  | .dec n k => some ((n : ℚ) / 10 ^ k)
  | _ => none

/-- JavaScript isNaN on a parseFloat result. -/
def JSNum.isNaN : JSNum → Bool
  | .nan => true
  | _ => false

/-- The JavaScript comparison x <= 0 (false for NaN). -/
def JSNum.le0 : JSNum → Bool
  | .nan => false
  | .inf positive => !positive
  | .dec n _ => decide (n ≤ 0)

/-- Put a decimal mantissa/shift pair in lowest decimal terms by
    stripping trailing zero digits (and collapsing zero itself), so that
    equal JavaScript numbers get identical representations. -/
def normDec (n : ℤ) : ℕ → ℤ × ℕ
  | 0 => (n, 0)
  | k + 1 =>
      if n = 0 then (0, 0)
      else if n % 10 = 0 then normDec (n / 10) k
      else (n, k + 1)

/-- Number of decimal digits of a natural number (fuel-based, so the
    kernel can evaluate it). -/
def numDigits (n : ℕ) : ℕ := go n n
where
  go : ℕ → ℕ → ℕ
  | 0, _ => 1
  | fuel + 1, n => if n < 10 then 1 else go fuel (n / 10) + 1

/-- Number of binary digits of a natural number (0 for 0; fuel-based). -/
def bitlen (n : ℕ) : ℕ := go n n
where
  go : ℕ → ℕ → ℕ
  | 0, _ => 0
  | fuel + 1, n => if n = 0 then 0 else go fuel (n / 2) + 1

/-- num / den rounded to the nearest natural, ties to even. -/
def roundHalfEvenNat (num den : ℕ) : ℕ :=
  let q := num / den
  let r := num % den
  if den < 2 * r then q + 1
  else if 2 * r < den then q
  else if q % 2 = 0 then q else q + 1

/-- Round the exact decimal m * 10 ^ e10 to the nearest IEEE-754
    binary64 value, ties to even, as ECMA-262 6.1.6.1 prescribes for
    the mathematical value of a numeric literal: magnitudes at least
    2 ^ 1024 become Infinity, magnitudes at most 2 ^ (-1075) become
    zero, and subnormals lose precision below 2 ^ (-1022).  The coarse
    range checks (decimal exponent at least 309, or at most -324) avoid
    materialising astronomically large powers; inside the moderate
    range everything is computed with exact integer arithmetic: the
    binade via a 2 ^ 1200 scaling (the value exceeds 10 ^ (-324) there,
    so the scaled floor is positive and the binade exact), then the
    53-bit significand by round-half-to-even. -/
def roundToDouble (m : ℤ) (e10 : ℤ) : JSNum :=
  if m = 0 then JSNum.dec 0 0
  else
    let positive := decide (0 < m)
    let a := m.natAbs
    let d : ℤ := (numDigits a : ℤ)
    if 309 ≤ d - 1 + e10 then JSNum.inf positive
    else if d + e10 ≤ -324 then JSNum.dec 0 0
    else
      let p : ℕ := if 0 ≤ e10 then a * 10 ^ e10.toNat else a
      let q : ℕ := if 0 ≤ e10 then 1 else 10 ^ (-e10).toNat
      let e2 : ℤ := (bitlen (p * 2 ^ 1200 / q) : ℤ) - 1 - 1200
      let E : ℤ := max e2 (-1022)
      let shift : ℤ := 52 - E
      let num : ℕ := if 0 ≤ shift then p * 2 ^ shift.toNat else p
      let den : ℕ := if 0 ≤ shift then q else q * 2 ^ (-shift).toNat
      let m2 : ℕ := roundHalfEvenNat num den
      if m2 = 0 then JSNum.dec 0 0
      else if 1023 < E then JSNum.inf positive
      else if m2 = 2 ^ 53 ∧ E = 1023 then JSNum.inf positive
      else
        let j : ℤ := 52 - E
        let nk : ℕ × ℕ :=
          if j ≤ 0 then (m2 * 2 ^ (-j).toNat, 0)
          else (m2 * 5 ^ j.toNat, j.toNat)
        let nrm := normDec (if positive then (nk.1 : ℤ) else -(nk.1 : ℤ)) nk.2
        JSNum.dec nrm.1 nrm.2

/-- Exact decimal rendering of a positive a / 10 ^ k (the fallback used
    when the value is not a double, which parseFloat never produces). -/
def exactRender (a k : ℕ) : String :=
  let nrm := normDec (a : ℤ) k
  let m := nrm.1.natAbs
  let kn := nrm.2
  let ds := (toString m).data
  let ds := if ds.length ≤ kn then List.replicate (kn + 1 - ds.length) '0' ++ ds else ds
  if kn = 0 then String.mk ds
  else String.mk (ds.take (ds.length - kn) ++ '.' :: ds.drop (ds.length - kn))

/-- Lay out the digits s with decimal exponent position n exactly as
    ECMA-262 Number toString does: plain notation when 21 >= n > -6,
    exponent notation otherwise. -/
def formatDecimal (s : ℕ) (n : ℤ) : String :=
  let ds := (toString s).data
  let k : ℤ := (ds.length : ℤ)
  if k ≤ n ∧ n ≤ 21 then
    String.mk (ds ++ List.replicate (n - k).toNat '0')
  else if 0 < n ∧ n ≤ 21 then
    String.mk (ds.take n.toNat ++ '.' :: ds.drop n.toNat)
  else if -5 ≤ n ∧ n ≤ 0 then
    String.mk ('0' :: '.' :: (List.replicate (-n).toNat '0' ++ ds))
  else
    let mant := if ds.length = 1 then ds else ds.take 1 ++ '.' :: ds.drop 1
    let expo : ℤ := n - 1
    String.mk mant ++ "e" ++ (if 0 ≤ expo then "+" else "-") ++ toString expo.natAbs

/-- Search for the shortest digit count (1 to 17, the fuel) whose
    nearest decimal of that length rounds back to the double
    a / 10 ^ k (given normalised as target); per ECMA-262 this is the
    digit string Number toString prints.  n10 is the decimal exponent
    position of the value. -/
def findShortest (a k : ℕ) (n10 : ℤ) (target : ℤ × ℕ) : ℕ → ℕ → Option (ℕ × ℤ)
  | 0, _ => none
  | fuel + 1, kk =>
      let e : ℤ := (kk : ℤ) - n10 - (k : ℤ)
      let c : ℕ := if 0 ≤ e then a * 10 ^ e.toNat else roundHalfEvenNat a (10 ^ (-e).toNat)
      let sn : ℕ × ℤ := if c = 10 ^ kk then (10 ^ (kk - 1), n10 + 1) else (c, n10)
      if roundToDouble (sn.1 : ℤ) (sn.2 - (kk : ℤ)) = JSNum.dec target.1 target.2 then
        some sn
      else findShortest a k n10 target fuel (kk + 1)

/-- Render a positive double a / 10 ^ k the way JavaScript prints it:
    the shortest decimal that reads back as the same double, laid out
    by formatDecimal; exact rendering as a safety net for values that
    are not doubles. -/
def renderPos (a k : ℕ) : String :=
  match findShortest a k ((numDigits a : ℤ) - (k : ℤ)) (normDec (a : ℤ) k) 17 1 with
  | some (s, n) => formatDecimal s n
  | none => exactRender a k

/-- How a JSNum appears inside a JavaScript template literal (both 0
    and -0 print as the bare digit zero). -/
def JSNum.render : JSNum → String
  | .nan => "NaN"
  | .inf true => "Infinity"
  | .inf false => "-Infinity"
  | .dec n k =>
      if n = 0 then "0"
      else (if n < 0 then "-" else "") ++ renderPos n.natAbs k

/-- The ECMA-262 StrWhiteSpace characters: WhiteSpace (TAB, VT, FF,
    SP, NBSP, ZWNBSP and the Zs category) and LineTerminator (LF, CR,
    LS, PS). -/
def isJsSpace (c : Char) : Bool :=
  c == ' ' || c == '\t' || c == '\n' || c == '\r' || c == '\x0b' || c == '\x0c' ||
  c == '\u00A0' || c == '\uFEFF' || c == '\u1680' ||
  (decide ('\u2000'.toNat ≤ c.toNat) && decide (c.toNat ≤ '\u200A'.toNat)) ||
  c == '\u2028' || c == '\u2029' || c == '\u202F' || c == '\u205F' || c == '\u3000'

/-- Leading decimal digits of a character list, and the rest. -/
def spanDigits (cs : List Char) : List Char × List Char :=
  (cs.takeWhile Char.isDigit, cs.dropWhile Char.isDigit)

/-- Numeric value of a digit string. -/
def digitsVal (ds : List Char) : ℕ :=
  ds.foldl (fun acc c => 10 * acc + (c.toNat - 48)) 0

/-- Does the first character list start with the second list? -/
def startsWithChars (p cs : List Char) : Bool :=
  match p, cs with
  | [], _ => true
  | _ :: _, [] => false
  | a :: ps, c :: rest => a == c && startsWithChars ps rest

/-- Signed exponent following the letter e in a decimal literal; 0 when
    no digit follows (in which case parseFloat stops before the e). -/
def parseExponent (cs : List Char) : ℤ :=
  let signAndRest :=
    match cs with
    | '+' :: rest => ((1 : ℤ), rest)
    | '-' :: rest => ((-1 : ℤ), rest)
    | _ => ((1 : ℤ), cs)
  let ds := (spanDigits signAndRest.2).1
  if ds.isEmpty then 0 else signAndRest.1 * (digitsVal ds : ℤ)

/-- JavaScript parseFloat: skip leading whitespace, read an optional
    sign, then the longest prefix that is the word Infinity or a decimal
    literal (digits, optional fraction, optional exponent); NaN when no
    such prefix exists.  Trailing characters are ignored.  The literal's
    mathematical value is rounded to the nearest IEEE-754 double. -/
def parseFloat (s : String) : JSNum :=
  let cs0 := s.data.dropWhile isJsSpace
  let signAndRest :=
    match cs0 with
    | '+' :: rest => (true, rest)
    | '-' :: rest => (false, rest)
    | _ => (true, cs0)
  let positive := signAndRest.1
  let cs := signAndRest.2
  if startsWithChars "Infinity".data cs then JSNum.inf positive
  else
    let (ip, r1) := spanDigits cs
    let (fp, r2) :=
      match r1 with
      | '.' :: rest => spanDigits rest
      | _ => ([], r1)
    if ip.isEmpty && fp.isEmpty then JSNum.nan
    else
      let exp : ℤ :=
        match r2 with
        | 'e' :: rest => parseExponent rest
        | 'E' :: rest => parseExponent rest
        | _ => 0
      let mantissa : ℤ := (if positive then 1 else -1) * (digitsVal (ip ++ fp) : ℤ)
      roundToDouble mantissa (exp - (fp.length : ℤ))

/-- Result of decoding the cumulative text: the non-empty entries, the
    latest entry, and the input level. -/
structure Decoded where
  entries : List String
  latest : String
  level : ℕ
deriving DecidableEq, Repr

/-- Split a character list on the star delimiter, keeping empty
    segments, exactly as the JavaScript split method does. -/
def splitStar : List Char → List (List Char)
  | [] => [[]]
  | '*' :: rest => [] :: splitStar rest
  | c :: rest =>
      match splitStar rest with
      | [] => [[c]]
      | seg :: segs => (c :: seg) :: segs

/-- Input decoding from src/index.js lines 52-54: split the cumulative
    text on the star delimiter, drop empty segments; the latest entry is
    the last one (empty string when there is none) and the level is the
    number of entries. -/
def decode (text : String) : Decoded :=
  let entries := ((splitStar text.data).map String.mk).filter (fun s => s ≠ "")
  { entries := entries
    latest := entries.getLast?.getD ""
    level := entries.length }

/-- The partially built registration payload (farmerData in the session
    object of src/index.js). -/
structure FarmerData where
  name : Option String := none
  county : Option String := none
  crop : Option String := none
  farmSize : Option JSNum := none
deriving DecidableEq, Repr

/-- A session record, from the object created at src/index.js
    lines 57-64. -/
structure Session where
  phoneNumber : String
  stage : Stage
  farmerData : FarmerData
  lastActivity : ℤ
  createdAt : ℤ
deriving DecidableEq, Repr

/-- A completed registration, from the object written at src/index.js
    lines 229-236. -/
structure FarmerRecord where
  name : Option String
  county : Option String
  crop : Option String
  farmSize : Option JSNum
  phoneNumber : String
  registrationDate : String
deriving DecidableEq, Repr

/-- The two global mutable maps of src/index.js: sessionData and
    farmerDatabase. -/
structure ServerState where
  sessions : String → Option Session
  farmers : String → Option FarmerRecord

/-- How a possibly-undefined string appears in a JavaScript template
    literal. -/
def optStr (o : Option String) : String := o.getD "undefined"

/-- How a possibly-undefined number appears in a JavaScript template
    literal. -/
def optNumStr (o : Option JSNum) : String := (o.map JSNum.render).getD "undefined"

/-- generateMainMenu from src/index.js lines 709-716. -/
def generateMainMenu : String :=
  "CON Welcome to Farmer Registration Service\nPlease select an option:\n1. Register as new farmer\n2. Check registration status\n3. Exit"

/-- generateCropMenu from src/index.js lines 721-733. -/
def generateCropMenu : String :=
  "CON Select your main crop:\n1. Maize\n2. Wheat\n3. Rice\n4. Beans\n5. Potatoes\n6. Tea\n7. Coffee\n8. Sugarcane\n9. Other"

/-- The county menu built inline at src/index.js lines 137-145. -/
def countyMenu : String :=
  "CON Enter your county location:\n1. Nairobi\n2. Kiambu\n3. Machakos\n4. Nakuru\n5. Meru\n6. Kisumu\n7. Mombasa\n8. Other"

/-- The name prompt from src/index.js lines 103-104. -/
def namePrompt : String :=
  "CON Welcome to Farmer Registration\nPlease enter your full name:"

/-- The farm-size prompt from src/index.js lines 197-198. -/
def farmSizePrompt : String :=
  "CON Enter your farm size in acres:\n(Example: 2.5 or 10)"

/-- The farm-size re-prompt with error note from src/index.js
    lines 216-217. -/
def invalidFarmSizePrompt : String :=
  "CON Invalid farm size. Please enter a valid number:\n(Example: 2.5 or 10)"

/-- generateConfirmation from src/index.js lines 738-747. -/
def generateConfirmation (data : FarmerData) : String :=
  "CON Confirm your details:\nName: " ++ optStr data.name ++
    "\nCounty: " ++ optStr data.county ++
    "\nCrop: " ++ optStr data.crop ++
    "\nFarm: " ++ optNumStr data.farmSize ++
    " acres\n\n1. Confirm & Register\n2. Cancel"

/-- The registration-status detail message from src/index.js
    lines 111-116. -/
def detailsMessage (f : FarmerRecord) : String :=
  "END Your Registration Details:\nName: " ++ optStr f.name ++
    "\nCounty: " ++ optStr f.county ++
    "\nCrop: " ++ optStr f.crop ++
    "\nFarm Size: " ++ optNumStr f.farmSize ++
    " acres\nRegistered: " ++ f.registrationDate

/-- The not-registered message from src/index.js lines 118-119. -/
def notRegisteredMessage : String :=
  "END You are not registered yet.\nPlease dial again and select option 1 to register."

/-- The success message from src/index.js lines 238-241. -/
def successMessage (name : Option String) : String :=
  "END Registration successful!\nThank you " ++ optStr name ++
    ".\nYou will receive SMS confirmation shortly.\nFor assistance, call 0700000000"

/-- The goodbye message from src/index.js lines 125-126. -/
def goodbyeMessage : String :=
  "END Thank you for using Farmer Registration Service.\nGoodbye!"

/-- The invalid-option message from src/index.js line 130. -/
def invalidOptionMessage : String := "END Invalid option. Please try again."

/-- The invalid-selection message from src/index.js lines 169 and 201. -/
def invalidSelectionMessage : String := "END Invalid selection. Please try again."

/-- The custom-county prompt from src/index.js line 162. -/
def customCountyPrompt : String := "CON Please type your county name:"

/-- The custom-crop prompt from src/index.js line 193. -/
def customCropPrompt : String := "CON Please type your crop type:"

/-- The cancellation message from src/index.js lines 249-250. -/
def cancelledMessage : String := "END Registration cancelled.\nDial again to start over."

/-- The invalid-confirmation message from src/index.js line 253. -/
def invalidCancelledMessage : String := "END Invalid option. Registration cancelled."

/-- The unrecoverable-state message from src/index.js line 272. -/
def unexpectedErrorMessage : String := "END An error occurred. Please dial again to restart."

/-- The system-error substitute from src/index.js line 280. -/
def systemErrorMessage : String := "END System error. Please try again later."

/-- The response-deadline message from src/index.js line 47, sent when
    the 25-second timer fires before a response went out. -/
def timeoutResponse : String := "END Request timeout. Please try again."

/-- The county code map from src/index.js lines 150-158. -/
def counties : List (String × String) :=
  [("1", "Nairobi"), ("2", "Kiambu"), ("3", "Machakos"), ("4", "Nakuru"),
   ("5", "Meru"), ("6", "Kisumu"), ("7", "Mombasa")]

/-- The crop code map from src/index.js lines 181-190. -/
def crops : List (String × String) :=
  [("1", "Maize"), ("2", "Wheat"), ("3", "Rice"), ("4", "Beans"),
   ("5", "Potatoes"), ("6", "Tea"), ("7", "Coffee"), ("8", "Sugarcane")]

/-- The property keys every plain JavaScript object literal inherits
    from Object.prototype; reading one of them on a map such as
    farmerDatabase or counties yields a truthy value (a built-in
    function, or Object.prototype itself for the last key) even when
    the map holds no own entry. -/
def objectProtoKeys : List String :=
  ["constructor", "hasOwnProperty", "isPrototypeOf", "propertyIsEnumerable",
   "toLocaleString", "toString", "valueOf",
   "__defineGetter__", "__defineSetter__", "__lookupGetter__", "__lookupSetter__",
   "__proto__"]

/-- The name property of the value inherited for an Object.prototype
    key: built-in methods carry their own key as function name, the
    constructor is the function Object, and the proto accessor yields
    Object.prototype, which has no name property. -/
def protoMemberName (k : String) : Option String :=
  if k = "__proto__" then none
  else if k = "constructor" then some "Object"
  else some k

/-- How the value inherited for an Object.prototype key prints inside a
    template literal (V8 renders built-in functions as native-code
    stubs and Object.prototype as a plain object). -/
def protoMemberRender (k : String) : String :=
  if k = "__proto__" then "[object Object]"
  else "function " ++ (protoMemberName k).getD "" ++ "() \x7b [native code] \x7d"

/-- The JavaScript property read farmerDatabase[phoneNumber] on the
    plain-object registry: an own record when present, otherwise the
    inherited Object.prototype member for the twelve prototype keys —
    rendered as the record the status template observes on it (its
    name property; county, crop, farmSize and registrationDate read
    undefined, and the string undefined prints identically) — and
    undefined (none) for every other key. -/
def jsRecordLookup (own : String → Option FarmerRecord) (k : String) :
    Option FarmerRecord :=
  match own k with
  | some f => some f
  | none =>
      if k ∈ objectProtoKeys then
        some { name := protoMemberName k, county := none, crop := none,
               farmSize := none, phoneNumber := k, registrationDate := "undefined" }
      else none

/-- The JavaScript property read counties[x] or crops[x] on a
    plain-object string map: an own entry when present, otherwise the
    truthy inherited Object.prototype member (stored as the string it
    later prints as in a template literal) for the twelve prototype
    keys, and undefined (none) for every other key. -/
def jsStringMapLookup (pairs : List (String × String)) (k : String) : Option String :=
  match pairs.lookup k with
  | some v => some v
  | none => if k ∈ objectProtoKeys then some (protoMemberRender k) else none

/-- JavaScript String.prototype.trim (ASCII whitespace). -/
def trimChars (s : String) : String :=
  String.mk (((s.data.dropWhile isJsSpace).reverse.dropWhile isJsSpace).reverse)

/-- Session timeout from src/index.js line 18 (five minutes, in
    milliseconds). -/
def SESSION_TIMEOUT : ℤ := 5 * 60 * 1000

/-- cleanupSession from src/index.js lines 752-758: delete the entry if
    present, otherwise do nothing. -/
def cleanupSession (sessionId : String) (sessions : String → Option Session) :
    String → Option Session :=
  match sessions sessionId with
  | some _ => fun k => if k = sessionId then none else sessions k
  | none => sessions

/-- One tick of the expiry sweeper from src/index.js lines 21-29: delete
    every session whose inactivity exceeds SESSION_TIMEOUT. -/
def sweepSessions (now : ℤ) (sessions : String → Option Session) :
    String → Option Session :=
  fun k =>
    match sessions k with
    | some s => if now - s.lastActivity > SESSION_TIMEOUT then none else some s
    | none => none

/-- The empty-response safeguard from src/index.js lines 277-282:
    substitute a generic terminal system-error message and force the
    session deletion when the computed response is blank. -/
def ensureResponse (resp : String) (delete : Bool) : String × Bool :=
  if trimChars resp = "" then (systemErrorMessage, true) else (resp, delete)

/-- What one dispatch of the stage engine produces: the response text,
    the (possibly mutated) session, whether cleanupSession was called,
    and a registry record to write, if any. -/
structure StepResult where
  response : String
  session : Session
  delete : Bool
  register : Option FarmerRecord
deriving Repr

/-- The branch for the empty cumulative text, src/index.js lines 93-97:
    show the main menu and reset the stage. -/
def emptyTextStep (session : Session) : StepResult :=
  { response := generateMainMenu
    session := { session with stage := .MAIN_MENU }
    delete := false, register := none }

/-- The inputLevel one branch, src/index.js lines 98-133: the main-menu
    switch on the latest entry. -/
def mainMenuStep (session : Session) (farmers : String → Option FarmerRecord)
    (phoneNumber currentInput : String) : StepResult :=
  if currentInput = "1" then
    { response := namePrompt
      session := { session with stage := .ENTER_NAME }
      delete := false, register := none }
  else if currentInput = "2" then
    { response :=
        match jsRecordLookup farmers phoneNumber with
        | some f => detailsMessage f
        | none => notRegisteredMessage
      session := session, delete := true, register := none }
  else if currentInput = "3" then
    { response := goodbyeMessage
      session := session, delete := true, register := none }
  else
    { response := invalidOptionMessage
      session := session, delete := true, register := none }

/-- The ENTER_NAME branch, src/index.js lines 134-147. -/
def nameStep (session : Session) (currentInput : String) : StepResult :=
  { response := countyMenu
    session := { session with stage := .SELECT_COUNTY,
                              farmerData := { session.farmerData with name := some currentInput } }
    delete := false, register := none }

/-- The SELECT_COUNTY branch, src/index.js lines 148-172. -/
def countyStep (session : Session) (currentInput : String) : StepResult :=
  if currentInput = "8" then
    { response := customCountyPrompt
      session := { session with stage := .ENTER_CUSTOM_COUNTY }
      delete := false, register := none }
  else
    match jsStringMapLookup counties currentInput with
    | some c =>
        { response := generateCropMenu
          session := { session with stage := .SELECT_CROP,
                                    farmerData := { session.farmerData with county := some c } }
          delete := false, register := none }
    | none =>
        { response := invalidSelectionMessage
          session := session, delete := true, register := none }

/-- The ENTER_CUSTOM_COUNTY branch, src/index.js lines 173-178. -/
def customCountyStep (session : Session) (currentInput : String) : StepResult :=
  { response := generateCropMenu
    session := { session with stage := .SELECT_CROP,
                              farmerData := { session.farmerData with county := some currentInput } }
    delete := false, register := none }

/-- The SELECT_CROP branch, src/index.js lines 179-204 (note: no input
    level guard in the source). -/
def cropStep (session : Session) (currentInput : String) : StepResult :=
  if currentInput = "9" then
    { response := customCropPrompt
      session := { session with stage := .ENTER_CUSTOM_CROP }
      delete := false, register := none }
  else
    match jsStringMapLookup crops currentInput with
    | some c =>
        { response := farmSizePrompt
          session := { session with stage := .ENTER_FARM_SIZE,
                                    farmerData := { session.farmerData with crop := some c } }
          delete := false, register := none }
    | none =>
        { response := invalidSelectionMessage
          session := session, delete := true, register := none }

/-- The ENTER_CUSTOM_CROP branch, src/index.js lines 205-211. -/
def customCropStep (session : Session) (currentInput : String) : StepResult :=
  { response := farmSizePrompt
    session := { session with stage := .ENTER_FARM_SIZE,
                              farmerData := { session.farmerData with crop := some currentInput } }
    delete := false, register := none }

/-- The ENTER_FARM_SIZE branch, src/index.js lines 212-224: validate
    via parseFloat and either re-prompt in place or store the farm size
    and show the confirmation. -/
def farmSizeStep (session : Session) (currentInput : String) : StepResult :=
  let farmSize := parseFloat currentInput
  if farmSize.isNaN || farmSize.le0 then
    { response := invalidFarmSizePrompt
      session := session, delete := false, register := none }
  else
    let fd := { session.farmerData with farmSize := some farmSize }
    { response := generateConfirmation fd
      session := { session with stage := .CONFIRM_REGISTRATION, farmerData := fd }
      delete := false, register := none }

/-- The CONFIRM_REGISTRATION branch, src/index.js lines 225-256. -/
def confirmStep (session : Session) (phoneNumber dateStr currentInput : String) :
    StepResult :=
  if currentInput = "1" then
    { response := successMessage session.farmerData.name
      session := session, delete := true
      register := some
        { name := session.farmerData.name
          county := session.farmerData.county
          crop := session.farmerData.crop
          farmSize := session.farmerData.farmSize
          phoneNumber := phoneNumber
          registrationDate := dateStr } }
  else if currentInput = "2" then
    { response := cancelledMessage
      session := session, delete := true, register := none }
  else
    { response := invalidCancelledMessage
      session := session, delete := true, register := none }

/-- The fallback recovery branch, src/index.js lines 257-275. -/
def fallbackStep (session : Session) (text currentInput : String)
    (inputLevel : ℕ) : StepResult :=
  if inputLevel = 1 ∧ (currentInput = "1" ∨ currentInput = "2" ∨ currentInput = "3") then
    { response := generateMainMenu
      session := { session with stage := .MAIN_MENU }
      delete := false, register := none }
  else if inputLevel = 0 ∨ text = "" then
    { response := generateMainMenu
      session := { session with stage := .MAIN_MENU }
      delete := false, register := none }
  else
    { response := unexpectedErrorMessage
      session := session, delete := true, register := none }

/-- The stage dispatch of the POST /ussd handler, src/index.js
    lines 93-275: the if/else chain over the cumulative text, the input
    level and the session stage.  The session passed in is the stored
    session after its lastActivity bump. -/
def ussdDispatch (session : Session) (farmers : String → Option FarmerRecord)
    (phoneNumber text : String) (dateStr : String) : StepResult :=
  let d := decode text
  let currentInput := d.latest
  let inputLevel := d.level
  if text = "" then emptyTextStep session
  else if inputLevel = 1 then mainMenuStep session farmers phoneNumber currentInput
  else if session.stage = .ENTER_NAME ∧ inputLevel = 2 then nameStep session currentInput
  else if session.stage = .SELECT_COUNTY ∧ inputLevel = 3 then countyStep session currentInput
  else if session.stage = .ENTER_CUSTOM_COUNTY ∧ inputLevel = 4 then
    customCountyStep session currentInput
  else if session.stage = .SELECT_CROP then cropStep session currentInput
  else if session.stage = .ENTER_CUSTOM_CROP then customCropStep session currentInput
  else if session.stage = .ENTER_FARM_SIZE then farmSizeStep session currentInput
  else if session.stage = .CONFIRM_REGISTRATION then
    confirmStep session phoneNumber dateStr currentInput
  else fallbackStep session text currentInput inputLevel

/-- The get-or-create step of the handler, src/index.js lines 57-68:
    return the stored session with its lastActivity bumped, or a fresh
    MAIN_MENU session with createdAt = lastActivity = now. -/
def bumpOrNew (st : ServerState) (sessionId phoneNumber : String) (now : ℤ) : Session :=
  match st.sessions sessionId with
  | some s => { s with lastActivity := now }
  | none =>
      { phoneNumber := phoneNumber, stage := .MAIN_MENU, farmerData := {}
        lastActivity := now, createdAt := now }

/-- The complete POST /ussd handler from src/index.js lines 35-298:
    get-or-create the session (bumping lastActivity), run the stage
    dispatch, apply the empty-response safeguard, commit the registry
    write and the store update or deletion, and return the response
    body.  now is Date.now() and dateStr is the formatted local
    timestamp used for registrationDate.  (The lost-session recovery
    branch at lines 74-90 is unreachable, because the lookup directly
    follows the creation of the entry, and is therefore not modelled.) -/
def handleUssd (st : ServerState) (sessionId phoneNumber text : String)
    (now : ℤ) (dateStr : String) : String × ServerState :=
  let session := bumpOrNew st sessionId phoneNumber now
  let sessions1 : String → Option Session :=
    fun k => if k = sessionId then some session else st.sessions k
  let r := ussdDispatch session st.farmers phoneNumber text dateStr
  let safeguarded := ensureResponse r.response r.delete
  let farmers' :=
    match r.register with
    | some rec => fun k => if k = phoneNumber then some rec else st.farmers k
    | none => st.farmers
  let sessions' :=
    if safeguarded.2 then cleanupSession sessionId sessions1
    else fun k => if k = sessionId then some r.session else st.sessions k
  (safeguarded.1, { sessions := sessions', farmers := farmers' })

/-- The response deadline of src/index.js lines 43-49 combined with the
    normal send path (lines 284-297), with the asynchronous race
    collapsed into one Boolean input: responseSentInTime says whether
    the handler's res.send ran before the 25-second timer fired.  When
    it did not, the headersSent guard makes the timer emit the fixed
    timeout message; exactly one response goes out either way, and the
    timer neither cancels nor rolls back the handler's store and
    registry mutations, which stand in both cases. -/
def handleWithDeadline (st : ServerState) (sessionId phoneNumber text : String)
    (now : ℤ) (dateStr : String) (responseSentInTime : Bool) : String × ServerState :=
  let r := handleUssd st sessionId phoneNumber text now dateStr
  (if responseSentInTime then r.1 else timeoutResponse, r.2)

/-- The empty session store (the state of sessionData at startup). -/
def emptySessions : String → Option Session := fun _ => none

/-- The data-completeness condition of spec section 3: a session has the
    pendingData fields of all stages already passed populated (the name
    after ENTER_NAME, the county after the county stages, the crop after
    the crop stages, the farm size after ENTER_FARM_SIZE). -/
def sessionDataOk (s : Session) : Bool :=
  match s.stage with
  | .MAIN_MENU => true
  | .ENTER_NAME => true
  | .SELECT_COUNTY => s.farmerData.name.isSome
  | .ENTER_CUSTOM_COUNTY => s.farmerData.name.isSome
  | .SELECT_CROP => s.farmerData.name.isSome && s.farmerData.county.isSome
  | .ENTER_CUSTOM_CROP => s.farmerData.name.isSome && s.farmerData.county.isSome
  | .ENTER_FARM_SIZE =>
      s.farmerData.name.isSome && s.farmerData.county.isSome && s.farmerData.crop.isSome
  | .CONFIRM_REGISTRATION =>
      s.farmerData.name.isSome && s.farmerData.county.isSome &&
        s.farmerData.crop.isSome && s.farmerData.farmSize.isSome

/-- The store-wide invariant: every stored session is data-complete for
    its stage. -/
def StoreInv (sessions : String → Option Session) : Prop :=
  ∀ id s, sessions id = some s → sessionDataOk s = true

/-- The spec-side guard of the farm-size transition, formalised from the
    spec words: the latest entry, as a whole, is a decimal literal
    (optional sign, digits with optional fraction, optional exponent —
    so neither the word Infinity nor a string with trailing garbage) of
    positive value.  Used only to compare the spec wording against the
    parseFloat-based check the code performs. -/
def specPosFiniteDecimal (s : String) : Bool :=
  let signAndRest :=
    match s.data with
    | '+' :: rest => (true, rest)
    | '-' :: rest => (false, rest)
    | _ => (true, s.data)
  let (ip, r1) := spanDigits signAndRest.2
  let (fp, r2) :=
    match r1 with
    | '.' :: rest => spanDigits rest
    | _ => ([], r1)
  let rest :=
    match r2 with
    | 'e' :: t => expRest t r2
    | 'E' :: t => expRest t r2
    | _ => r2
  (!ip.isEmpty || !fp.isEmpty) && rest.isEmpty && signAndRest.1 &&
    decide (0 < digitsVal (ip ++ fp))
where
  /-- what remains after a well-formed exponent part; the whole tail
      including the letter e when the exponent part is malformed -/
  expRest (t whole : List Char) : List Char :=
    let t2 :=
      match t with
      | '+' :: u => u
      | '-' :: u => u
      | _ => t
    let (ds, r3) := spanDigits t2
    if ds.isEmpty then whole else r3

/-- A response line with the continue directive or the terminal
    directive: its character data starts with CON-space or END-space. -/
def directiveShaped (s : String) : Prop :=
  "CON ".data <+: s.data ∨ "END ".data <+: s.data

/-! ## Concrete evaluation checks of the embedding -/

example : decode "" = ⟨[], "", 0⟩ := by decide
example : decode "1*John*2" = ⟨["1", "John", "2"], "2", 3⟩ := by decide
example : decode "**" = ⟨[], "", 0⟩ := by decide
example : decode "*1*" = ⟨["1"], "1", 1⟩ := by decide
example : parseFloat "3.5" = JSNum.dec 35 1 := by decide
example : parseFloat "abc" = JSNum.nan := by decide
example : parseFloat "" = JSNum.nan := by decide
example : parseFloat "Infinity" = JSNum.inf true := by decide
example : parseFloat "3.5abc" = JSNum.dec 35 1 := by decide
example : parseFloat "-2" = JSNum.dec (-2) 0 := by decide
example : parseFloat "0" = JSNum.dec 0 0 := by decide
example : parseFloat " 2.5e1" = JSNum.dec 25 0 := by decide
example : parseFloat "3.50" = JSNum.dec 35 1 := by decide
example : JSNum.render (parseFloat "1e-3") = "0.001" := by decide
example : parseFloat "1e-400" = JSNum.dec 0 0 := by decide
example : (parseFloat "1e-400").le0 = true := by decide
example : parseFloat "1e400" = JSNum.inf true := by decide
example : parseFloat "\u00A05" = JSNum.dec 5 0 := by decide
example : JSNum.render (parseFloat "0.1") = "0.1" := by decide
example : JSNum.render (parseFloat "1e21") = "1e+21" := by decide
example : JSNum.render (parseFloat "5e-324") = "5e-324" := by decide
example : jsRecordLookup (fun _ => none) "toString" =
    some { name := some "toString", county := none, crop := none, farmSize := none,
           phoneNumber := "toString", registrationDate := "undefined" } := by decide
example : jsRecordLookup (fun _ => none) "+254712345678" = none := by decide
example : jsStringMapLookup counties "toString" =
    some "function toString() \x7b [native code] \x7d" := by decide
example : jsStringMapLookup counties "5" = some "Meru" := by decide
example : jsStringMapLookup crops "9" = none := by decide
example :
    (handleUssd
        { sessions := fun k =>
            if k = "w" then
              some { phoneNumber := "toString", stage := .MAIN_MENU, farmerData := {},
                     lastActivity := 0, createdAt := 0 }
            else none,
          farmers := fun _ => none } "w" "toString" "2" 3 "d").1 =
      "END Your Registration Details:\nName: toString\nCounty: undefined\nCrop: undefined\nFarm Size: undefined acres\nRegistered: undefined" := by
  decide
example : JSNum.render (JSNum.dec 35 1) = "3.5" := by decide
example : JSNum.render (JSNum.dec 5 0) = "5" := by decide
example : JSNum.render (JSNum.dec 1 3) = "0.001" := by decide
example : (JSNum.dec 35 1).le0 = false := by decide
example : (JSNum.dec 0 0).le0 = true := by decide
example : specPosFiniteDecimal "3.5" = true := by decide
example : specPosFiniteDecimal "Infinity" = false := by decide
example : specPosFiniteDecimal "3.5abc" = false := by decide
example : specPosFiniteDecimal "0" = false := by decide
example : specPosFiniteDecimal "-2" = false := by decide
example : specPosFiniteDecimal "2e3" = true := by decide
example : specPosFiniteDecimal "1e" = false := by decide
example : specPosFiniteDecimal "" = false := by decide
example : specPosFiniteDecimal ".5" = true := by decide

/-! ## Helper lemmas -/

theorem data_append_eq (s t : String) : (s ++ t).data = s.data ++ t.data := rfl

theorem directive_of_append {p : List Char} {s : String} (t : String)
    (h : p <+: s.data) : p <+: (s ++ t).data := by
  rcases h with ⟨u, hu⟩
  exact ⟨u ++ t.data, by rw [data_append_eq, ← hu, List.append_assoc]⟩

theorem dropWhile_append_singleton_ne_nil {p : Char → Bool} {c : Char}
    (hc : p c = false) (xs : List Char) : (xs ++ [c]).dropWhile p ≠ [] := by
  induction xs with
  | nil => simp [List.dropWhile, hc]
  | cons x xs ih =>
      by_cases hx : p x
      · simpa [List.dropWhile, hx] using ih
      · simp [List.dropWhile, hx]

theorem trimChars_cons_ne_empty {c : Char} {rest : List Char}
    (hc : isJsSpace c = false) {s : String} (hs : s.data = c :: rest) :
    trimChars s ≠ "" := by
  intro hEq
  have hdata := congrArg String.data hEq
  rw [trimChars] at hdata
  simp only [hs, List.dropWhile, hc] at hdata
  have hne : ((rest.reverse ++ [c]).dropWhile isJsSpace).reverse ≠ [] := by
    intro h0
    exact dropWhile_append_singleton_ne_nil hc rest.reverse (by simpa using h0)
  exact hne (by simpa [List.reverse_cons] using hdata)

theorem directive_head {s : String} (h : directiveShaped s) :
    ∃ c rest, s.data = c :: rest ∧ isJsSpace c = false := by
  rcases h with ⟨t, ht⟩ | ⟨t, ht⟩
  · exact ⟨'C', 'O' :: 'N' :: ' ' :: t, by rw [← ht]; rfl, by decide⟩
  · exact ⟨'E', 'N' :: 'D' :: ' ' :: t, by rw [← ht]; rfl, by decide⟩

theorem directive_ne_empty {s : String} (h : directiveShaped s) : s ≠ "" := by
  rcases directive_head h with ⟨c, rest, hdata, -⟩
  intro h0
  rw [h0] at hdata
  exact absurd hdata (by simp)

theorem ensureResponse_of_directive {resp : String} (d : Bool)
    (h : directiveShaped resp) : ensureResponse resp d = (resp, d) := by
  rcases directive_head h with ⟨c, rest, hdata, hc⟩
  rw [ensureResponse, if_neg (trimChars_cons_ne_empty hc hdata)]

theorem cleanup_at_self (id : String) (f : String → Option Session) :
    cleanupSession id f id = none := by
  rw [cleanupSession]
  cases h : f id with
  | some s => simp
  | none => exact h

theorem cleanup_frame {k id : String} (hk : k ≠ id) (f : String → Option Session) :
    cleanupSession id f k = f k := by
  rw [cleanupSession]
  cases h : f id with
  | some s => simp [hk]
  | none => rfl

theorem cleanup_pointwise (sessionId : String) (f : String → Option Session) (k : String) :
    cleanupSession sessionId f k = if k = sessionId then none else f k := by
  rw [cleanupSession]
  cases h : f sessionId with
  | some s => rfl
  | none =>
      by_cases hk : k = sessionId
      · subst hk; simp [h]
      · simp [hk]

theorem sessionDataOk_bump (s : Session) (t : ℤ) :
    sessionDataOk { s with lastActivity := t } = sessionDataOk s := rfl

theorem level_one_text_ne {text : String} (h : (decode text).level = 1) :
    text ≠ "" := by
  intro ht
  rw [ht] at h
  exact absurd h (by decide)

theorem emptyTextStep_wf (s : Session) : directiveShaped (emptyTextStep s).response :=
  Or.inl (show "CON ".data <+: generateMainMenu.data by decide)

theorem mainMenuStep_wf (s : Session) (farmers : String → Option FarmerRecord)
    (ph ci : String) : directiveShaped (mainMenuStep s farmers ph ci).response := by
  simp only [mainMenuStep]
  split_ifs
  · exact Or.inl (show "CON ".data <+: namePrompt.data by decide)
  · cases hf : jsRecordLookup farmers ph with
    | some f => exact Or.inr (by (repeat apply directive_of_append); decide)
    | none => exact Or.inr (show "END ".data <+: notRegisteredMessage.data by decide)
  · exact Or.inr (show "END ".data <+: goodbyeMessage.data by decide)
  · exact Or.inr (show "END ".data <+: invalidOptionMessage.data by decide)

theorem nameStep_wf (s : Session) (ci : String) :
    directiveShaped (nameStep s ci).response :=
  Or.inl (show "CON ".data <+: countyMenu.data by decide)

theorem countyStep_wf (s : Session) (ci : String) :
    directiveShaped (countyStep s ci).response := by
  simp only [countyStep]
  split_ifs
  · exact Or.inl (show "CON ".data <+: customCountyPrompt.data by decide)
  · cases jsStringMapLookup counties ci with
    | some c => exact Or.inl (show "CON ".data <+: generateCropMenu.data by decide)
    | none => exact Or.inr (show "END ".data <+: invalidSelectionMessage.data by decide)

theorem customCountyStep_wf (s : Session) (ci : String) :
    directiveShaped (customCountyStep s ci).response :=
  Or.inl (show "CON ".data <+: generateCropMenu.data by decide)

theorem cropStep_wf (s : Session) (ci : String) :
    directiveShaped (cropStep s ci).response := by
  simp only [cropStep]
  split_ifs
  · exact Or.inl (show "CON ".data <+: customCropPrompt.data by decide)
  · cases jsStringMapLookup crops ci with
    | some c => exact Or.inl (show "CON ".data <+: farmSizePrompt.data by decide)
    | none => exact Or.inr (show "END ".data <+: invalidSelectionMessage.data by decide)

theorem customCropStep_wf (s : Session) (ci : String) :
    directiveShaped (customCropStep s ci).response :=
  Or.inl (show "CON ".data <+: farmSizePrompt.data by decide)

theorem farmSizeStep_wf (s : Session) (ci : String) :
    directiveShaped (farmSizeStep s ci).response := by
  simp only [farmSizeStep]
  split_ifs
  · exact Or.inl (show "CON ".data <+: invalidFarmSizePrompt.data by decide)
  · exact Or.inl (by (repeat apply directive_of_append); decide)

theorem confirmStep_wf (s : Session) (ph ds ci : String) :
    directiveShaped (confirmStep s ph ds ci).response := by
  simp only [confirmStep]
  split_ifs
  · exact Or.inr (by (repeat apply directive_of_append); decide)
  · exact Or.inr (show "END ".data <+: cancelledMessage.data by decide)
  · exact Or.inr (show "END ".data <+: invalidCancelledMessage.data by decide)

theorem fallbackStep_wf (s : Session) (text ci : String) (lvl : ℕ) :
    directiveShaped (fallbackStep s text ci lvl).response := by
  simp only [fallbackStep]
  split_ifs
  · exact Or.inl (show "CON ".data <+: generateMainMenu.data by decide)
  · exact Or.inl (show "CON ".data <+: generateMainMenu.data by decide)
  · exact Or.inr (show "END ".data <+: unexpectedErrorMessage.data by decide)

theorem dispatch_wf (session : Session) (farmers : String → Option FarmerRecord)
    (ph text ds : String) :
    directiveShaped (ussdDispatch session farmers ph text ds).response := by
  simp only [ussdDispatch]
  split_ifs
  · exact emptyTextStep_wf _
  · exact mainMenuStep_wf _ _ _ _
  · exact nameStep_wf _ _
  · exact countyStep_wf _ _
  · exact customCountyStep_wf _ _
  · exact cropStep_wf _ _
  · exact customCropStep_wf _ _
  · exact farmSizeStep_wf _ _
  · exact confirmStep_wf _ _ _ _
  · exact fallbackStep_wf _ _ _ _

theorem emptyTextStep_ok (s : Session) : sessionDataOk (emptyTextStep s).session = true := rfl

theorem mainMenuStep_ok (s : Session) (farmers : String → Option FarmerRecord)
    (ph ci : String) (h : sessionDataOk s = true) :
    sessionDataOk (mainMenuStep s farmers ph ci).session = true := by
  simp only [mainMenuStep]
  split_ifs <;> first | rfl | exact h

theorem nameStep_ok (s : Session) (ci : String) :
    sessionDataOk (nameStep s ci).session = true := rfl

theorem countyStep_ok (s : Session) (ci : String)
    (hstage : s.stage = .SELECT_COUNTY) (h : sessionDataOk s = true) :
    sessionDataOk (countyStep s ci).session = true := by
  simp only [sessionDataOk, hstage] at h
  simp only [countyStep]
  split_ifs
  · simpa [sessionDataOk] using h
  · cases jsStringMapLookup counties ci with
    | some c => simp [sessionDataOk, h]
    | none => simpa [sessionDataOk, hstage] using h

theorem customCountyStep_ok (s : Session) (ci : String)
    (hstage : s.stage = .ENTER_CUSTOM_COUNTY) (h : sessionDataOk s = true) :
    sessionDataOk (customCountyStep s ci).session = true := by
  simp only [sessionDataOk, hstage] at h
  simp only [customCountyStep]
  simp [sessionDataOk, h]

theorem cropStep_ok (s : Session) (ci : String)
    (hstage : s.stage = .SELECT_CROP) (h : sessionDataOk s = true) :
    sessionDataOk (cropStep s ci).session = true := by
  simp only [sessionDataOk, hstage] at h
  simp only [cropStep]
  split_ifs
  · simpa [sessionDataOk] using h
  · cases jsStringMapLookup crops ci with
    | some c => simp [sessionDataOk, h]
    | none => simpa [sessionDataOk, hstage] using h

theorem customCropStep_ok (s : Session) (ci : String)
    (hstage : s.stage = .ENTER_CUSTOM_CROP) (h : sessionDataOk s = true) :
    sessionDataOk (customCropStep s ci).session = true := by
  simp only [sessionDataOk, hstage] at h
  simp only [customCropStep]
  simp [sessionDataOk, h]

theorem farmSizeStep_ok (s : Session) (ci : String)
    (hstage : s.stage = .ENTER_FARM_SIZE) (h : sessionDataOk s = true) :
    sessionDataOk (farmSizeStep s ci).session = true := by
  simp only [sessionDataOk, hstage] at h
  simp only [farmSizeStep]
  split_ifs
  · simpa [sessionDataOk, hstage] using h
  · simp [sessionDataOk, h]

theorem confirmStep_ok (s : Session) (ph ds ci : String)
    (h : sessionDataOk s = true) :
    sessionDataOk (confirmStep s ph ds ci).session = true := by
  simp only [confirmStep]
  split_ifs <;> exact h

theorem fallbackStep_ok (s : Session) (text ci : String) (lvl : ℕ)
    (h : sessionDataOk s = true) :
    sessionDataOk (fallbackStep s text ci lvl).session = true := by
  simp only [fallbackStep]
  split_ifs <;> first | rfl | exact h

theorem dispatch_preserves_ok (session : Session)
    (farmers : String → Option FarmerRecord) (ph text ds : String)
    (h : sessionDataOk session = true) :
    sessionDataOk (ussdDispatch session farmers ph text ds).session = true := by
  simp only [ussdDispatch]
  split_ifs with h1 h2 h3 h4 h5 h6 h7 h8 h9
  · exact emptyTextStep_ok _
  · exact mainMenuStep_ok _ _ _ _ h
  · exact nameStep_ok _ _
  · exact countyStep_ok _ _ h4.1 h
  · exact customCountyStep_ok _ _ h5.1 h
  · exact cropStep_ok _ _ h6 h
  · exact customCropStep_ok _ _ h7 h
  · exact farmSizeStep_ok _ _ h8 h
  · exact confirmStep_ok _ _ _ _ h
  · exact fallbackStep_ok _ _ _ _ h

theorem handle_response (st : ServerState) (id ph text : String) (now : ℤ) (ds : String) :
    (handleUssd st id ph text now ds).1 =
      (ussdDispatch (bumpOrNew st id ph now) st.farmers ph text ds).response := by
  simp only [handleUssd]
  rw [ensureResponse_of_directive _ (dispatch_wf _ _ _ _ _)]

theorem handle_sessions_at (st : ServerState) (id ph text : String) (now : ℤ) (ds : String) :
    (handleUssd st id ph text now ds).2.sessions id =
      if (ussdDispatch (bumpOrNew st id ph now) st.farmers ph text ds).delete then none
      else some (ussdDispatch (bumpOrNew st id ph now) st.farmers ph text ds).session := by
  simp only [handleUssd]
  rw [ensureResponse_of_directive _ (dispatch_wf _ _ _ _ _)]
  cases hd : (ussdDispatch (bumpOrNew st id ph now) st.farmers ph text ds).delete <;>
    simp [hd, cleanup_at_self]

theorem handle_sessions_frame (st : ServerState) (id ph text : String) (now : ℤ)
    (ds : String) {k : String} (hk : k ≠ id) :
    (handleUssd st id ph text now ds).2.sessions k = st.sessions k := by
  simp only [handleUssd]
  rw [ensureResponse_of_directive _ (dispatch_wf _ _ _ _ _)]
  cases hd : (ussdDispatch (bumpOrNew st id ph now) st.farmers ph text ds).delete <;>
    simp [hd, cleanup_frame hk, hk]

theorem handle_farmers (st : ServerState) (id ph text : String) (now : ℤ) (ds : String) :
    (handleUssd st id ph text now ds).2.farmers =
      match (ussdDispatch (bumpOrNew st id ph now) st.farmers ph text ds).register with
      | some rec => fun k => if k = ph then some rec else st.farmers k
      | none => st.farmers := rfl

/-! ## Claim theorems -/

/-- C6: input decoding is a pure total function of the cumulative text:
    the empty text decodes to level 0 with latest the empty string; the
    text 1-star-John-star-2 decodes to the three entries with latest
    the entry 2 and level 3; a delimiter-only text decodes to level 0;
    in general the entries are the non-empty star-separated segments in
    order, latest is the last of them (or the empty string if none),
    and level is their count. -/
theorem decode_pure_total :
    decode "" = ⟨[], "", 0⟩ ∧
    decode "1*John*2" = ⟨["1", "John", "2"], "2", 3⟩ ∧
    decode "**" = ⟨[], "", 0⟩ ∧
    ∀ t : String,
      (decode t).entries = ((splitStar t.data).map String.mk).filter (fun s => s ≠ "") ∧
      (decode t).latest = ((decode t).entries.getLast?).getD "" ∧
      (decode t).level = (decode t).entries.length :=
  ⟨by decide, by decide, by decide, fun t => ⟨rfl, rfl, rfl⟩⟩

/-- C7: after one sweeper tick at time now, every stored session whose
    inactivity exceeds the five-minute timeout is absent from the store,
    and every session within the timeout window is still present
    unchanged; the tick deletes no unexpired session and touches no
    absent key. -/
theorem sweeper_one_tick (now : ℤ) (sessions : String → Option Session)
    (id : String) (s : Session) (h : sessions id = some s) :
    (now - s.lastActivity > SESSION_TIMEOUT → sweepSessions now sessions id = none) ∧
    (now - s.lastActivity ≤ SESSION_TIMEOUT → sweepSessions now sessions id = some s) := by
  constructor <;> intro hc
  · simp [sweepSessions, h, hc]
  · have hlt : ¬ (now - s.lastActivity > SESSION_TIMEOUT) := not_lt.mpr hc
    simp [sweepSessions, h, hlt]

/-- C7 witness: a concrete two-session store swept at time 600000 with
    the five-minute timeout: the session idle since time 0 is deleted,
    the session touched at time 400000 survives. -/
theorem sweeper_one_tick_witness :
    sweepSessions 600000
        (fun k =>
          if k = "old" then
            some { phoneNumber := "p1", stage := .MAIN_MENU, farmerData := {},
                   lastActivity := 0, createdAt := 0 }
          else if k = "new" then
            some { phoneNumber := "p2", stage := .MAIN_MENU, farmerData := {},
                   lastActivity := 400000, createdAt := 0 }
          else none) "old" = none ∧
    sweepSessions 600000
        (fun k =>
          if k = "old" then
            some { phoneNumber := "p1", stage := .MAIN_MENU, farmerData := {},
                   lastActivity := 0, createdAt := 0 }
          else if k = "new" then
            some { phoneNumber := "p2", stage := .MAIN_MENU, farmerData := {},
                   lastActivity := 400000, createdAt := 0 }
          else none) "new" =
      some { phoneNumber := "p2", stage := .MAIN_MENU, farmerData := {},
             lastActivity := 400000, createdAt := 0 } :=
  ⟨(sweeper_one_tick 600000 _ "old"
      { phoneNumber := "p1", stage := .MAIN_MENU, farmerData := {},
        lastActivity := 0, createdAt := 0 } (by decide)).1 (by decide),
   (sweeper_one_tick 600000 _ "new"
      { phoneNumber := "p2", stage := .MAIN_MENU, farmerData := {},
        lastActivity := 400000, createdAt := 0 } (by decide)).2 (by decide)⟩

/-- C8: session deletion is idempotent: for every sessionId, present in
    the store or not, deleting twice leaves the store exactly as
    deleting once (the second call is a no-op), the deleted key reads
    back as absent, every other key is untouched, and the operation is
    total (it never errors). -/
theorem cleanup_idempotent (sessionId : String) (sessions : String → Option Session) :
    cleanupSession sessionId (cleanupSession sessionId sessions) =
      cleanupSession sessionId sessions ∧
    ∀ k, cleanupSession sessionId sessions k = if k = sessionId then none else sessions k := by
  refine ⟨funext fun k => ?_, cleanup_pointwise sessionId sessions⟩
  rw [cleanup_pointwise, cleanup_pointwise]
  by_cases hk : k = sessionId <;> simp [hk]

/-- C5 counterexample: the fabricated response-deadline message of
    src/index.js line 47 is not a continue-type (CON) message, contrary
    to the claim; it carries the terminal END directive. -/
theorem timeout_message_not_con : ¬ ("CON ".data <+: timeoutResponse.data) := by decide

/-- C5 (amended): when the overall 25-second response deadline expires
    before a response has been sent, the system emits the single
    best-effort terminal (END) timeout message — not a continue-type
    one — and the underlying stage computation is not cancelled: the
    store and registry mutations of the request stand exactly as the
    handler computed them.  This fabricated timeout response is the
    only path where the emitted response differs from the computed
    directive: whenever the response went out in time, what is emitted
    is the handler's own directive.  (The race outcome — whether the
    timer fired first — enters the model as a Boolean input; real
    timing is outside the embedding.) -/
theorem deadline_timeout_behavior (st : ServerState) (id ph text : String)
    (now : ℤ) (ds : String) :
    (handleWithDeadline st id ph text now ds false).1 = timeoutResponse ∧
    ("END ".data <+: timeoutResponse.data ∧ ¬ ("CON ".data <+: timeoutResponse.data)) ∧
    (handleWithDeadline st id ph text now ds false).2 =
      (handleUssd st id ph text now ds).2 ∧
    (handleWithDeadline st id ph text now ds true).1 =
      (handleUssd st id ph text now ds).1 ∧
    (handleWithDeadline st id ph text now ds true).2 =
      (handleUssd st id ph text now ds).2 :=
  ⟨rfl, ⟨by decide, by decide⟩, rfl, rfl, rfl⟩

/-- C4: every inbound request produces exactly one non-empty plain-text
    response whose character data begins with CON-space or END-space;
    and the empty-response safeguard substitutes the generic terminal
    system-error message with the deletion flag set whenever the
    computed response is blank. -/
theorem response_always_directive (st : ServerState) (id ph text : String)
    (now : ℤ) (ds : String) (d : Bool) :
    directiveShaped (handleUssd st id ph text now ds).1 ∧
    (handleUssd st id ph text now ds).1 ≠ "" ∧
    ensureResponse "" d = (systemErrorMessage, true) := by
  have hw := dispatch_wf (bumpOrNew st id ph now) st.farmers ph text ds
  rw [handle_response]
  exact ⟨hw, directive_ne_empty hw, rfl⟩

/-- C9: for every stored session, a request whose cumulative text
    decodes to exactly one entry is handled as a main-menu selection
    regardless of the stored stage: entry 1 moves the session to
    ENTER_NAME with the name prompt; entry 2 answers from the registry
    read farmerDatabase[phoneNumber] (a prototype-chain read: an own
    record, an inherited Object.prototype member for keys such as
    toString, or not-registered) and deletes the session; entry 3 says
    goodbye and deletes; any other single entry terminates with the
    invalid-option message and deletes.  The conclusions never mention
    the stored stage, so the stage is not consulted at input level
    one. -/
theorem level_one_overrides_stage (st : ServerState) (id ph text : String)
    (now : ℤ) (ds : String) (s : Session)
    (hs : st.sessions id = some s) (hlevel : (decode text).level = 1) :
    ((decode text).latest = "1" →
        (handleUssd st id ph text now ds).1 = namePrompt ∧
        (handleUssd st id ph text now ds).2.sessions id =
          some { s with lastActivity := now, stage := .ENTER_NAME } ∧
        (handleUssd st id ph text now ds).2.farmers = st.farmers) ∧
    ((decode text).latest = "2" →
        (handleUssd st id ph text now ds).1 =
          (match jsRecordLookup st.farmers ph with
            | some f => detailsMessage f
            | none => notRegisteredMessage) ∧
        (handleUssd st id ph text now ds).2.sessions id = none ∧
        (handleUssd st id ph text now ds).2.farmers = st.farmers) ∧
    ((decode text).latest = "3" →
        (handleUssd st id ph text now ds).1 = goodbyeMessage ∧
        (handleUssd st id ph text now ds).2.sessions id = none) ∧
    ((decode text).latest ≠ "1" → (decode text).latest ≠ "2" →
      (decode text).latest ≠ "3" →
        (handleUssd st id ph text now ds).1 = invalidOptionMessage ∧
        (handleUssd st id ph text now ds).2.sessions id = none) := by
  have htext : text ≠ "" := level_one_text_ne hlevel
  have hbump : bumpOrNew st id ph now = { s with lastActivity := now } := by
    simp [bumpOrNew, hs]
  have hdis : ussdDispatch (bumpOrNew st id ph now) st.farmers ph text ds =
      mainMenuStep { s with lastActivity := now } st.farmers ph (decode text).latest := by
    rw [hbump]
    simp only [ussdDispatch]
    rw [if_neg htext, if_pos hlevel]
  refine ⟨fun hci => ⟨?_, ?_, ?_⟩, fun hci => ⟨?_, ?_, ?_⟩, fun hci => ⟨?_, ?_⟩,
    fun h1 h2 h3 => ⟨?_, ?_⟩⟩
  · rw [handle_response, hdis, hci]; rfl
  · rw [handle_sessions_at, hdis, hci]; rfl
  · rw [handle_farmers, hdis, hci]; rfl
  · rw [handle_response, hdis, hci]; rfl
  · rw [handle_sessions_at, hdis, hci]; rfl
  · rw [handle_farmers, hdis, hci]; rfl
  · rw [handle_response, hdis, hci]; rfl
  · rw [handle_sessions_at, hdis, hci]; rfl
  · rw [handle_response, hdis]
    simp only [mainMenuStep]
    rw [if_neg h1, if_neg h2, if_neg h3]
  · rw [handle_sessions_at, hdis]
    simp only [mainMenuStep]
    rw [if_neg h1, if_neg h2, if_neg h3]
    rfl

/-- C9 witness: a stored session sitting at CONFIRM_REGISTRATION still
    gets main-menu treatment for the single entry 1. -/
theorem level_one_overrides_stage_witness :
    (handleUssd
        { sessions := fun k =>
            if k = "w9" then
              some { phoneNumber := "p", stage := .CONFIRM_REGISTRATION,
                     farmerData := { name := some "X", county := some "Y",
                                     crop := some "Z", farmSize := some (JSNum.dec 1 0) },
                     lastActivity := 0, createdAt := 0 }
            else none,
          farmers := fun _ => none } "w9" "p" "1" 7 "d").1 = namePrompt ∧
    (handleUssd
        { sessions := fun k =>
            if k = "w9" then
              some { phoneNumber := "p", stage := .CONFIRM_REGISTRATION,
                     farmerData := { name := some "X", county := some "Y",
                                     crop := some "Z", farmSize := some (JSNum.dec 1 0) },
                     lastActivity := 0, createdAt := 0 }
            else none,
          farmers := fun _ => none } "w9" "p" "1" 7 "d").2.sessions "w9" =
      some { phoneNumber := "p", stage := .ENTER_NAME,
             farmerData := { name := some "X", county := some "Y",
                             crop := some "Z", farmSize := some (JSNum.dec 1 0) },
             lastActivity := 7, createdAt := 0 } := by
  have h := level_one_overrides_stage
    { sessions := fun k =>
        if k = "w9" then
          some { phoneNumber := "p", stage := .CONFIRM_REGISTRATION,
                 farmerData := { name := some "X", county := some "Y",
                                 crop := some "Z", farmSize := some (JSNum.dec 1 0) },
                 lastActivity := 0, createdAt := 0 }
        else none,
      farmers := fun _ => none } "w9" "p" "1" 7 "d"
    { phoneNumber := "p", stage := .CONFIRM_REGISTRATION,
      farmerData := { name := some "X", county := some "Y",
                      crop := some "Z", farmSize := some (JSNum.dec 1 0) },
      lastActivity := 0, createdAt := 0 } (by decide) (by decide)
  exact ⟨(h.1 (by decide)).1, (h.1 (by decide)).2.1⟩

/-- Reaching the ENTER_FARM_SIZE branch: with the stored stage at
    ENTER_FARM_SIZE, a non-empty text whose level is not one falls
    through every earlier branch of the dispatch chain. -/
theorem dispatch_at_farm_size (session : Session)
    (farmers : String → Option FarmerRecord) (ph text ds : String)
    (hstage : session.stage = .ENTER_FARM_SIZE) (htext : text ≠ "")
    (hlevel : (decode text).level ≠ 1) :
    ussdDispatch session farmers ph text ds =
      farmSizeStep session (decode text).latest := by
  simp only [ussdDispatch]
  rw [if_neg htext, if_neg hlevel,
    if_neg (by simp [hstage]), if_neg (by simp [hstage]), if_neg (by simp [hstage]),
    if_neg (by simp [hstage]), if_neg (by simp [hstage]), if_pos hstage]

theorem farmSizeStep_register (s : Session) (ci : String) :
    (farmSizeStep s ci).register = none := by
  simp only [farmSizeStep]
  split_ifs <;> rfl

/-- A concrete store for the C2 counterexample: one session parked at
    ENTER_FARM_SIZE with name, county and crop collected. -/
def c2State : ServerState :=
  { sessions := fun k =>
      if k = "c2" then
        some { phoneNumber := "p", stage := .ENTER_FARM_SIZE,
               farmerData := { name := some "Jane", county := some "Nairobi",
                               crop := some "Maize", farmSize := none },
               lastActivity := 0, createdAt := 0 }
      else none,
    farmers := fun _ => none }

/-- C2 counterexample: at ENTER_FARM_SIZE the latest entry Infinity is
    not a positive finite decimal number (the spec-side predicate
    rejects it), yet the engine advances the session to
    CONFIRM_REGISTRATION, storing the non-finite value Infinity as the
    farm size — so the advance happens without the spec-side guard
    holding, refuting the claimed equivalence. -/
theorem farm_size_gate_counterexample :
    specPosFiniteDecimal "Infinity" = false ∧
    (decode "1*Jane*1*1*Infinity").latest = "Infinity" ∧
    ((handleUssd c2State "c2" "p" "1*Jane*1*1*Infinity" 5 "d").2.sessions "c2").map
        Session.stage = some Stage.CONFIRM_REGISTRATION ∧
    (handleUssd c2State "c2" "p" "1*Jane*1*1*Infinity" 5 "d").1 =
      generateConfirmation
        { name := some "Jane", county := some "Nairobi", crop := some "Maize",
          farmSize := some (JSNum.inf true) } := by
  refine ⟨by decide, by decide, ?_, ?_⟩ <;> decide

/-- C2 (amended): for every session stored at stage ENTER_FARM_SIZE and
    every request whose cumulative text is non-empty and does not decode
    to exactly one entry, the request advances the session to
    CONFIRM_REGISTRATION (storing pendingData.farmSize and emitting the
    confirmation summary) precisely when parseFloat of the latest entry
    is neither NaN nor at most zero — a check that also admits
    non-finite values such as Infinity and entries with a numeric prefix
    followed by garbage; for every other latest entry the engine
    re-emits the farm-size prompt with an error note, the stage stays
    ENTER_FARM_SIZE, and the session is not deleted. -/
theorem farm_size_gate (st : ServerState) (id ph text : String) (now : ℤ)
    (ds : String) (s : Session)
    (hs : st.sessions id = some s) (hstage : s.stage = .ENTER_FARM_SIZE)
    (htext : text ≠ "") (hlevel : (decode text).level ≠ 1) :
    (((parseFloat (decode text).latest).isNaN ||
        (parseFloat (decode text).latest).le0) = false →
      (handleUssd st id ph text now ds).1 =
        generateConfirmation
          { s.farmerData with farmSize := some (parseFloat (decode text).latest) } ∧
      (handleUssd st id ph text now ds).2.sessions id =
        some { s with
                 lastActivity := now
                 stage := .CONFIRM_REGISTRATION
                 farmerData :=
                   { s.farmerData with farmSize := some (parseFloat (decode text).latest) } }) ∧
    (((parseFloat (decode text).latest).isNaN ||
        (parseFloat (decode text).latest).le0) = true →
      (handleUssd st id ph text now ds).1 = invalidFarmSizePrompt ∧
      (handleUssd st id ph text now ds).2.sessions id =
        some { s with lastActivity := now }) := by
  have hbump : bumpOrNew st id ph now = { s with lastActivity := now } := by
    simp [bumpOrNew, hs]
  have hdis : ussdDispatch (bumpOrNew st id ph now) st.farmers ph text ds =
      farmSizeStep { s with lastActivity := now } (decode text).latest := by
    rw [hbump]
    exact dispatch_at_farm_size _ _ _ _ _ hstage htext hlevel
  constructor <;> intro hcond
  · constructor
    · rw [handle_response, hdis]
      simp [farmSizeStep, hcond]
    · rw [handle_sessions_at, hdis]
      simp [farmSizeStep, hcond]
  · constructor
    · rw [handle_response, hdis]
      simp [farmSizeStep, hcond]
    · rw [handle_sessions_at, hdis]
      simp [farmSizeStep, hcond]

/-- C2 witness: a concrete valid entry advances the concrete session to
    the confirmation stage with the farm size stored. -/
theorem farm_size_gate_witness :
    (handleUssd c2State "c2" "p" "1*Jane*1*1*3.5" 5 "d").1 =
      generateConfirmation
        { name := some "Jane", county := some "Nairobi", crop := some "Maize",
          farmSize := some (JSNum.dec 35 1) } ∧
    (handleUssd c2State "c2" "p" "1*Jane*1*1*3.5" 5 "d").2.sessions "c2" =
      some { phoneNumber := "p", stage := .CONFIRM_REGISTRATION,
             farmerData := { name := some "Jane", county := some "Nairobi",
                             crop := some "Maize", farmSize := some (JSNum.dec 35 1) },
             lastActivity := 5, createdAt := 0 } := by
  have h := farm_size_gate c2State "c2" "p" "1*Jane*1*1*3.5" 5 "d"
    { phoneNumber := "p", stage := .ENTER_FARM_SIZE,
      farmerData := { name := some "Jane", county := some "Nairobi",
                      crop := some "Maize", farmSize := none },
      lastActivity := 0, createdAt := 0 }
    (by decide) (by decide) (by decide) (by decide)
  exact ⟨(h.1 (by decide)).1, (h.1 (by decide)).2⟩

/-- A concrete store for the C10 counterexample: one session parked at
    ENTER_FARM_SIZE with name, county and crop collected. -/
def c10State : ServerState :=
  { sessions := fun k =>
      if k = "c10" then
        some { phoneNumber := "p", stage := .ENTER_FARM_SIZE,
               farmerData := { name := some "Jane", county := some "Nairobi",
                               crop := some "Maize", farmSize := none },
               lastActivity := 0, createdAt := 0 }
      else none,
    farmers := fun _ => none }

/-- C10 counterexample: for the stored session at ENTER_FARM_SIZE, the
    request with empty cumulative text has latest entry the empty
    string, which does not parse as a positive number, yet handling it
    changes the stage to MAIN_MENU — a field other than lastActivityAt
    changes, refuting the claim as stated (the farm-size branch is
    bypassed for empty and single-entry texts). -/
theorem farm_size_frame_counterexample :
    (parseFloat (decode "").latest).isNaN = true ∧
    (handleUssd c10State "c10" "p" "" 9 "d").2.sessions "c10" =
      some { phoneNumber := "p", stage := .MAIN_MENU,
             farmerData := { name := some "Jane", county := some "Nairobi",
                             crop := some "Maize", farmSize := none },
             lastActivity := 9, createdAt := 0 } ∧
    (handleUssd c10State "c10" "p" "" 9 "d").2.sessions "c10" ≠
      some { phoneNumber := "p", stage := .ENTER_FARM_SIZE,
             farmerData := { name := some "Jane", county := some "Nairobi",
                             crop := some "Maize", farmSize := none },
             lastActivity := 9, createdAt := 0 } := by
  refine ⟨by decide, ?_, ?_⟩ <;> decide

/-- C10 (amended): for every session stored at stage ENTER_FARM_SIZE and
    every request whose cumulative text is non-empty and does not decode
    to exactly one entry, if the latest entry does not parse as a
    positive number then handling the request changes nothing but the
    session's lastActivity: the response is the re-prompt, the stored
    session keeps its stage, endUserId, createdAt and every pendingData
    field, every other session is untouched, and the registry is
    unchanged. -/
theorem farm_size_reprompt_frame (st : ServerState) (id ph text : String)
    (now : ℤ) (ds : String) (s : Session)
    (hs : st.sessions id = some s) (hstage : s.stage = .ENTER_FARM_SIZE)
    (htext : text ≠ "") (hlevel : (decode text).level ≠ 1)
    (hbad : ((parseFloat (decode text).latest).isNaN ||
        (parseFloat (decode text).latest).le0) = true) :
    (handleUssd st id ph text now ds).1 = invalidFarmSizePrompt ∧
    (handleUssd st id ph text now ds).2.sessions id =
      some { s with lastActivity := now } ∧
    (∀ k, k ≠ id → (handleUssd st id ph text now ds).2.sessions k = st.sessions k) ∧
    (handleUssd st id ph text now ds).2.farmers = st.farmers := by
  have hbump : bumpOrNew st id ph now = { s with lastActivity := now } := by
    simp [bumpOrNew, hs]
  have hdis : ussdDispatch (bumpOrNew st id ph now) st.farmers ph text ds =
      farmSizeStep { s with lastActivity := now } (decode text).latest := by
    rw [hbump]
    exact dispatch_at_farm_size _ _ _ _ _ hstage htext hlevel
  refine ⟨?_, ?_, ?_, ?_⟩
  · rw [handle_response, hdis]
    simp [farmSizeStep, hbad]
  · rw [handle_sessions_at, hdis]
    simp [farmSizeStep, hbad]
  · intro k hk
    exact handle_sessions_frame st id ph text now ds hk
  · rw [handle_farmers, hdis, farmSizeStep_register]

/-- C10 witness: a concrete non-numeric entry at ENTER_FARM_SIZE leaves
    the concrete session unchanged except for lastActivity, and leaves a
    second stored session and the registry untouched. -/
theorem farm_size_reprompt_frame_witness :
    (handleUssd c10State "c10" "p" "1*Jane*1*1*abc" 9 "d").1 =
      invalidFarmSizePrompt ∧
    (handleUssd c10State "c10" "p" "1*Jane*1*1*abc" 9 "d").2.sessions "c10" =
      some { phoneNumber := "p", stage := .ENTER_FARM_SIZE,
             farmerData := { name := some "Jane", county := some "Nairobi",
                             crop := some "Maize", farmSize := none },
             lastActivity := 9, createdAt := 0 } ∧
    (handleUssd c10State "c10" "p" "1*Jane*1*1*abc" 9 "d").2.sessions "other" =
      c10State.sessions "other" ∧
    (handleUssd c10State "c10" "p" "1*Jane*1*1*abc" 9 "d").2.farmers =
      c10State.farmers := by
  have h := farm_size_reprompt_frame c10State "c10" "p" "1*Jane*1*1*abc" 9 "d"
    { phoneNumber := "p", stage := .ENTER_FARM_SIZE,
      farmerData := { name := some "Jane", county := some "Nairobi",
                      crop := some "Maize", farmSize := none },
      lastActivity := 0, createdAt := 0 }
    (by decide) (by decide) (by decide) (by decide) (by decide)
  exact ⟨h.1, h.2.1, h.2.2.1 "other" (by decide), h.2.2.2⟩

/-- C3: the store invariant is preserved by every request and by the
    sweeper, starting from the empty store: every stored session with a
    stage other than MAIN_MENU has the pendingData fields of all stages
    already passed populated, and in particular no reachable store holds
    a CONFIRM_REGISTRATION session missing any of name, county, crop or
    farmSize. -/
theorem store_invariant_preserved :
    StoreInv emptySessions ∧
    (∀ (st : ServerState) (id ph text : String) (now : ℤ) (ds : String),
        StoreInv st.sessions → StoreInv (handleUssd st id ph text now ds).2.sessions) ∧
    (∀ (now : ℤ) (sessions : String → Option Session),
        StoreInv sessions → StoreInv (sweepSessions now sessions)) := by
  refine ⟨?_, ?_, ?_⟩
  · intro id s h
    exact absurd h (by simp [emptySessions])
  · intro st id ph text now ds hInv k s hk
    by_cases hkid : k = id
    · subst hkid
      rw [handle_sessions_at] at hk
      have hb : sessionDataOk (bumpOrNew st k ph now) = true := by
        rw [bumpOrNew]
        cases hst : st.sessions k with
        | some s0 =>
            have h0 := hInv k s0 hst
            simpa [sessionDataOk_bump] using h0
        | none => rfl
      cases hd : (ussdDispatch (bumpOrNew st k ph now) st.farmers ph text ds).delete with
      | true => rw [hd] at hk; exact absurd hk (by simp)
      | false =>
          rw [hd] at hk
          rw [if_neg (by decide : ¬ (false = true))] at hk
          cases hk
          exact dispatch_preserves_ok _ _ _ _ _ hb
    · rw [handle_sessions_frame st id ph text now ds hkid] at hk
      exact hInv k s hk
  · intro now sessions hInv k s hk
    simp only [sweepSessions] at hk
    cases h0 : sessions k with
    | none => rw [h0] at hk; exact absurd hk (by simp)
    | some s0 =>
        rw [h0] at hk
        dsimp only at hk
        by_cases hexp : now - s0.lastActivity > SESSION_TIMEOUT
        · rw [if_pos hexp] at hk
          exact absurd hk (by simp)
        · rw [if_neg hexp] at hk
          obtain rfl := Option.some.inj hk
          exact hInv k s0 h0

/-- C3 witness: the preservation branch applied to a concrete request
    against the empty store; the session created and advanced to
    ENTER_NAME by the single entry 1 is data-complete for its stage. -/
theorem store_invariant_preserved_witness :
    sessionDataOk { phoneNumber := "p", stage := .ENTER_NAME, farmerData := {},
                    lastActivity := 0, createdAt := 0 } = true :=
  store_invariant_preserved.2.1
    { sessions := emptySessions, farmers := fun _ => none } "w3" "p" "1" 0 "d"
    (fun id s h => absurd h (by simp [emptySessions])) "w3"
    { phoneNumber := "p", stage := .ENTER_NAME, farmerData := {},
      lastActivity := 0, createdAt := 0 } (by decide)

/-- The initial state for the happy-path scenario: no live sessions (the
    sessionId is unseen) and a registry already holding a prior record
    for the caller, so the run exhibits the overwrite. -/
def c1State : ServerState :=
  { sessions := emptySessions
    farmers := fun k =>
      if k = "+254712345678" then
        some { name := some "Old Name", county := some "Meru", crop := some "Tea",
               farmSize := some (JSNum.dec 1 0), phoneNumber := "+254712345678",
               registrationDate := "old" }
      else none }

def c1Run1 : String × ServerState := handleUssd c1State "c1" "+254712345678" "" 10 "reg-date"

def c1Run2 : String × ServerState :=
  handleUssd c1Run1.2 "c1" "+254712345678" "1" 20 "reg-date"

def c1Run3 : String × ServerState :=
  handleUssd c1Run2.2 "c1" "+254712345678" "1*Jane Wanjiru" 30 "reg-date"

def c1Run4 : String × ServerState :=
  handleUssd c1Run3.2 "c1" "+254712345678" "1*Jane Wanjiru*1" 40 "reg-date"

def c1Run5 : String × ServerState :=
  handleUssd c1Run4.2 "c1" "+254712345678" "1*Jane Wanjiru*1*1" 50 "reg-date"

def c1Run6 : String × ServerState :=
  handleUssd c1Run5.2 "c1" "+254712345678" "1*Jane Wanjiru*1*1*3.5" 60 "reg-date"

def c1Run7 : String × ServerState :=
  handleUssd c1Run6.2 "c1" "+254712345678" "1*Jane Wanjiru*1*1*3.5*1" 70 "reg-date"

/-- C1: the happy-path registration of scenario A: starting from a store
    in which the sessionId is unseen, the seven cumulative texts produce,
    in order, the CON main menu, the CON name prompt, the CON county
    menu, the CON crop menu, the CON farm-size prompt, the CON
    confirmation showing Jane Wanjiru, Nairobi, Maize and 3.5 acres, and
    the END success message; afterwards the registry maps the caller's
    endUserId to a record with farm size 3.5 (the exact rational 7/2),
    overwriting the prior record held for that id, and the session is
    deleted from the store. -/
theorem happy_path_registration :
    c1Run1.1 = generateMainMenu ∧
    c1Run2.1 = namePrompt ∧
    c1Run3.1 = countyMenu ∧
    c1Run4.1 = generateCropMenu ∧
    c1Run5.1 = farmSizePrompt ∧
    c1Run6.1 = "CON Confirm your details:\nName: Jane Wanjiru\nCounty: Nairobi\nCrop: Maize\nFarm: 3.5 acres\n\n1. Confirm & Register\n2. Cancel" ∧
    c1Run7.1 = "END Registration successful!\nThank you Jane Wanjiru.\nYou will receive SMS confirmation shortly.\nFor assistance, call 0700000000" ∧
    c1Run7.2.farmers "+254712345678" =
      some { name := some "Jane Wanjiru", county := some "Nairobi", crop := some "Maize",
             farmSize := some (JSNum.dec 35 1), phoneNumber := "+254712345678",
             registrationDate := "reg-date" } ∧
    c1Run7.2.farmers "+254712345678" ≠ c1State.farmers "+254712345678" ∧
    (JSNum.dec 35 1).toRatVal = some (7 / 2) ∧
    c1Run7.2.sessions "c1" = none := by
  refine ⟨by decide, by decide, by decide, by decide, by decide, by decide, by decide,
    by decide, by decide, ?_, by decide⟩
  simp only [JSNum.toRatVal, Option.some_inj]
  norm_num

end MicroCrop
